import Mathlib

/-!
Verification of the mubsub `Channel` (channel.js) against its specification.

The embedding models the channel's pure decision logic over explicit state:
documents in the capped collection, the collection/cursor references held by
the channel, the tailable cursor's `data` and `close` handlers, the
anchor-resolution function `latest`, `publish`, `close`, and the option
processing in the constructor.  Asynchrony is modelled where a claim needs
it: a suspended promise is an `Option`-`none` result, and the ordering of
the operations started by `listen`'s `Promise.all` is a set of admissible
traces.
-/

namespace Mubsub

/-- Published payloads are caller-supplied and never inspected by the
channel; a string stands in for them. -/
abbrev Msg := String

/-- A document in the capped collection.  `id` is the store-assigned `_id`,
strictly increasing in insertion order.  Documents are inserted either by
`publish` (fields `event` and `message`) or by the bootstrap insert in
`latest` (field `dummy`); a field a given insert does not set is absent
(`none` / `false`). -/
structure Entry where
  id : Nat
  event : Option String
  message : Option Msg
  dummy : Bool
deriving DecidableEq, Repr

/-- The capped collection as seen through the driver: the documents in
insertion order, the next `_id` the store will assign, and whether the
store acknowledges the next insert (`result.ok`). -/
structure Store where
  log : List Entry
  nextId : Nat
  insertOk : Bool
deriving DecidableEq, Repr

/-- `collection.insertOne`: appends a document with the store-assigned next
id and returns the written document (`res.ops` first element). -/
def insertOne (s : Store) (event : Option String) (message : Option Msg)
    (dummy : Bool) : Store × Entry :=
  let e : Entry := ⟨s.nextId, event, message, dummy⟩
  (⟨s.log ++ [e], s.nextId + 1, s.insertOk⟩, e)

/-- JavaScript truthiness of the `event` field of a document: `undefined`
is falsy, and so is the empty string. -/
def jsTruthy : Option String → Bool
  | none => false
  | some s => s ≠ ""

/-- One emission performed by the channel's event emitter: either an event
name with the document's `message` field (covers both the named event and
the wildcard name, which is the literal name `message`), or the raw
`document` emission carrying the whole document. -/
inductive Emission
  | event (name : String) (message : Option Msg)
  | document (doc : Entry)
deriving DecidableEq, Repr

/-- The cursor's `data` handler (channel.js lines 167 to 177): return
immediately when the channel is closed or the connection destroyed;
otherwise, for a non-null document, emit the document's event name and the
wildcard name `message` when `doc.event` is truthy, and always emit
`document`. -/
def handleData (closed destroyed : Bool) (doc : Option Entry) :
    List Emission :=
  if closed || destroyed then []
  else
    match doc with
    | none => []
    | some d =>
      (if jsTruthy d.event then
        [Emission.event (d.event.getD "") d.message,
         Emission.event "message" d.message]
      else []) ++ [Emission.document d]

/-- Emissions produced by a sequence of documents delivered by the stream,
in stream order: the `data` handler runs once per document, in order. -/
def deliverAll (closed destroyed : Bool) (docs : List Entry) :
    List Emission :=
  docs.flatMap fun d => handleData closed destroyed (some d)

/-- Projection of an emission list onto its raw `document` emissions. -/
def documents (es : List Emission) : List Entry :=
  es.filterMap fun e =>
    match e with
    | Emission.document d => some d
    | _ => none

/-- The query issued by `latest` (channel.js lines 197 to 200):
`find(latest ? ... : null)` filtered on the previous anchor's `_id` when
one is passed, sorted newest-first on natural order, `limit(1)`. -/
def newestQuery (s : Store) (latestArg : Option Entry) : List Entry :=
  match latestArg with
  | some l => ((s.log.filter fun e => e.id = l.id).reverse).take 1
  | none => s.log.reverse.take 1

/-- channel.js line 201 reads `.toArray()[0]`.  `toArray()` is called
without a callback, so it returns a Promise; the subscript reads property
`0` of that Promise object, which is `undefined` whatever the query found.
The query result is therefore discarded. -/
def toArrayZero (_result : List Entry) : Option Entry := none

/-- `Channel.prototype.latest` (channel.js lines 191 to 210): run the
newest-document query, read its result through `.toArray()[0]`, and if
that is absent insert a dummy document, returning the written document
when the store acknowledged the write and rejecting otherwise. -/
def latest (s : Store) (latestArg : Option Entry) :
    Except String (Store × Entry) :=
  match toArrayZero (newestQuery s latestArg) with
  | some doc => .ok (s, doc)
  | none =>
    let r := insertOne s none none true
    if s.insertOk then .ok r else .error "failed to insert dummy"

/-- The Position Tracker algorithm as the specification (section 4.2) and
the code's own doc comment (channel.js lines 183 to 185) describe it: the
newest-document query result is consulted, an existing newest document is
returned as the anchor with nothing inserted, and a dummy is inserted only
when the query found nothing. -/
def latestSpec (s : Store) (latestArg : Option Entry) :
    Except String (Store × Entry) :=
  match (newestQuery s latestArg).head? with
  | some doc => .ok (s, doc)
  | none =>
    let r := insertOne s none none true
    if s.insertOk then .ok r else .error "failed to insert dummy"

/-- The documents a tailable cursor opened with the filter
`_id $gt anchorId` (channel.js line 158) delivers from a given log. -/
def streamAfter (log : List Entry) (anchorId : Nat) : List Entry :=
  log.filter fun e => anchorId < e.id

/-- The channel state the claims about `close` and `publish` depend on:
the `closed` flag, the collection reference (absent until `create`'s
callback sets it, or after `close` releases it) and whether a cursor
reference is held. -/
structure Chan where
  closed : Bool
  collection : Option Store
  cursor : Bool
deriving DecidableEq, Repr

/-- `Channel.prototype.close` (channel.js lines 54 to 67): set `closed`,
and when a cursor reference is held, close it and release both the
collection and cursor references; otherwise resolve at once.  The boolean
result records that the returned promise resolves (it has no reject
path). -/
def close (c : Chan) : Chan × Bool :=
  let c1 : Chan := { c with closed := true }
  if c1.cursor then ({ c1 with collection := none, cursor := false }, true)
  else (c1, true)

/-- `Channel.prototype.ready` (channel.js lines 218 to 224) resolves at
once exactly when the collection reference is set; otherwise it suspends
until a `ready` event. -/
def ready (collection : Option Store) : Bool := collection.isSome

/-- `Channel.prototype.publish` (channel.js lines 78 to 82): await
`ready()`, then insert the document with fields `event` and `message` and
resolve with the written document.  A `none` result is the publish still
suspended on the readiness signal; there is no rejection path of its
own. -/
def publish (collection : Option Store) (event : String) (message : Msg) :
    Option (Store × Entry) :=
  match collection with
  | none => none
  | some s => some (insertOne s (some event) (some message) false)

/-- `publish` as invoked on a channel: it consults only the collection
reference, never the `closed` flag. -/
def publishChan (c : Chan) (event : String) (message : Msg) :
    Option (Store × Entry) :=
  publish c.collection event message

/-- The state mutation performed by `listen`'s `Promise.all` continuation
(channel.js lines 155 to 158): it unconditionally clears the closed flag
and assigns the newly opened cursor, without re-checking whether the
channel was closed while the continuation was pending; it then installs
the cursor handlers and emits `ready`. -/
def listenContinuation (c : Chan) : Chan :=
  { c with closed := false, cursor := true }

/-- Truthiness of the constructor option `options.recreate`, which is
either absent or a boolean. -/
def optTruthy : Option Bool → Bool
  | none => false
  | some b => b

/-- channel.js line 27: `this.recreate = options.recreate ?
options.recreate : true`. -/
def computeRecreate (opt : Option Bool) : Bool :=
  if optTruthy opt then optTruthy opt else true

/-- What the cursor's `close` handler does: whether it emits the broken
cursor error, and the previous anchor it passes to `create().listen(...)`
when it recreates. -/
structure CloseReaction where
  emitsBrokenCursorError : Bool
  recreatesWith : Option Entry
deriving DecidableEq, Repr

/-- The cursor's `close` handler (channel.js lines 159 to 166): return
immediately when the channel is closed or the connection destroyed;
otherwise emit the broken-cursor error and, when `this.recreate` holds,
restart `listen` with the anchor the broken stream was opened from. -/
def closeHandler (closed destroyed recreate : Bool) (anchor : Entry) :
    CloseReaction :=
  if closed || destroyed then ⟨false, none⟩
  else if recreate then ⟨true, some anchor⟩
  else ⟨true, none⟩

/-- channel.js line 31: `this.name = name || 'mubsub'`; absent and empty
names are falsy. -/
def channelName : Option String → String
  | none => "mubsub"
  | some s => if s = "" then "mubsub" else s

/-- The backing log a channel binds to: `createCollection` addresses
collections of the shared database by name, so the bound log is the
database's log under the computed channel name. -/
def boundLog (db : String → List Entry) (name : Option String) :
    List Entry :=
  db (channelName name)

/-- The operations `listen` (channel.js lines 148 to 179) starts, as trace
events: issuing the anchor query of `latest`, issuing the close of the
prior cursor, the anchor query resolving, the prior close resolving,
assigning the new cursor, and emitting `ready`. -/
inductive LOp
  | anchorQueryIssued
  | priorCloseIssued
  | anchorObtained
  | priorCloseCompleted
  | streamOpened
  | readyEmitted
deriving DecidableEq, Repr

/-- All six trace events of one `listen` invocation. -/
def LOp.all : List LOp :=
  [.anchorQueryIssued, .priorCloseIssued, .anchorObtained,
   .priorCloseCompleted, .streamOpened, .readyEmitted]

/-- `a` occurs strictly before `b` in trace `t`. -/
def precedes (t : List LOp) (a b : LOp) : Prop :=
  t.indexOf a < t.indexOf b

instance (t : List LOp) (a b : LOp) : Decidable (precedes t a b) := by
  unfold precedes; infer_instance

/-- The traces one `listen` invocation (with a prior stream to close)
admits.  `Promise.all([this.latest(latest), this.close()])` evaluates its
arguments in order, starting both operations before either resolves; each
operation resolves after it is issued; the `then` continuation that
assigns the new cursor runs only after both have resolved; `ready` is
emitted after the cursor is assigned. -/
def listenAdmits (t : List LOp) : Prop :=
  t.Nodup ∧ (∀ op ∈ LOp.all, op ∈ t) ∧
  precedes t .anchorQueryIssued .priorCloseIssued ∧
  precedes t .anchorQueryIssued .anchorObtained ∧
  precedes t .priorCloseIssued .priorCloseCompleted ∧
  precedes t .anchorObtained .streamOpened ∧
  precedes t .priorCloseCompleted .streamOpened ∧
  precedes t .streamOpened .readyEmitted

instance (t : List LOp) : Decidable (listenAdmits t) := by
  unfold listenAdmits; infer_instance

/-- The prior stream is still open at step `i` of the trace: its close has
not completed yet. -/
def priorOpenAt (t : List LOp) (i : Nat) : Prop :=
  i < t.indexOf .priorCloseCompleted

/-- The new stream is open at step `i` of the trace: the new cursor has
been assigned. -/
def newOpenAt (t : List LOp) (i : Nat) : Prop :=
  t.indexOf .streamOpened ≤ i

/-- Payloads delivered to subscribers of name `n`, in emission order. -/
def eventsFor (n : String) (es : List Emission) : List (Option Msg) :=
  es.filterMap fun e =>
    match e with
    | Emission.event m msg => if m = n then some msg else none
    | _ => none

/-! Concrete fixtures used by counterexamples and witnesses. -/

/-- A bootstrap dummy document at position 0. -/
def dummy0 : Entry := ⟨0, none, none, true⟩

/-- A published document at position 0 with event name `foo`. -/
def fooDoc : Entry := ⟨0, some "foo", some "m1", false⟩

/-- A published document whose `event` field holds the empty string. -/
def emptyEventDoc : Entry := ⟨1, some "", some "m2", false⟩

/-- A collection that already holds one document. -/
def nonEmptyStore : Store := ⟨[fooDoc], 1, true⟩

/-- The dummy document `latest` inserts into `nonEmptyStore`. -/
def dummy1 : Entry := ⟨1, none, none, true⟩

/-- Recovery scenario: the stream was opened from anchor `dummy0`, then
`pDoc` was delivered, the stream broke, and `qDoc` was appended before
recreation ran. -/
def pDoc : Entry := ⟨1, some "foo", some "p", false⟩

/-- The document appended after the break, not yet delivered. -/
def qDoc : Entry := ⟨2, some "bar", some "q", false⟩

/-- The collection at recreation time in the recovery scenario. -/
def recreateStore : Store := ⟨[dummy0, pDoc, qDoc], 3, true⟩

/-- The dummy document the recreation's `latest` call inserts. -/
def dummy3 : Entry := ⟨3, none, none, true⟩

/-- One admissible interleaving of `listen`'s operations in which the
anchor resolves before the prior close completes. -/
def listenTraceEx : List LOp :=
  [.anchorQueryIssued, .priorCloseIssued, .anchorObtained,
   .priorCloseCompleted, .streamOpened, .readyEmitted]

/-- A channel that never opened a cursor, with its collection set. -/
def chan0 : Chan := ⟨false, some nonEmptyStore, false⟩

/-- A channel holding a cursor reference, with its collection set. -/
def chanCur : Chan := ⟨false, some nonEmptyStore, true⟩

/-- A channel on which `close()` has been called while a `listen`
(initial provisioning or recreation) is still in flight: the closed flag
is set, the collection reference is set, and no cursor reference is held
yet, so `close()` resolves immediately. -/
def chanMidProvision : Chan := ⟨true, some nonEmptyStore, false⟩

/-! Helper lemmas. -/

theorem documents_handleData (d : Entry) :
    documents (handleData false false (some d)) = [d] := by
  cases h : jsTruthy d.event <;> simp [handleData, documents, h]

theorem documents_deliverAll (docs : List Entry) :
    documents (deliverAll false false docs) = docs := by
  induction docs with
  | nil => rfl
  | cons d rest ih =>
    have h1 := documents_handleData d
    simp only [deliverAll, List.flatMap_cons, documents,
      List.filterMap_append] at h1 ih ⊢
    rw [h1, ih]
    rfl

theorem eventsFor_handleData (n : String) (hn : n ≠ "message") (d : Entry) :
    eventsFor n (handleData false false (some d)) =
      if d.event = some n ∧ jsTruthy d.event then [d.message] else [] := by
  cases h : jsTruthy d.event
  · simp [handleData, eventsFor, h]
  · rcases he : d.event with _ | e
    · rw [he] at h; simp [jsTruthy] at h
    · rw [he] at h
      by_cases hne : e = n
      · subst hne
        simp [handleData, eventsFor, he, h, Ne.symm hn]
      · simp [handleData, eventsFor, he, h, hne, Ne.symm hn]

theorem eventsFor_deliverAll (n : String) (hn : n ≠ "message")
    (docs : List Entry) :
    eventsFor n (deliverAll false false docs) =
      (docs.filter fun d => d.event = some n ∧ jsTruthy d.event).map
        Entry.message := by
  induction docs with
  | nil => rfl
  | cons d rest ih =>
    have h1 := eventsFor_handleData n hn d
    simp only [deliverAll, List.flatMap_cons, eventsFor,
      List.filterMap_append] at h1 ih ⊢
    rw [h1, ih, List.filter_cons]
    by_cases hdn : d.event = some n
    · cases hdt : jsTruthy d.event
      · rw [hdn] at hdt
        simp [hdn, hdt]
      · rw [hdn] at hdt
        simp [hdn, hdt]
    · simp [hdn]

/-! Claim theorems. -/

/-- Claim C1, counterexample: a document whose `event` field holds the
empty string carries an event name, and the channel is tailing, yet the
data handler routes it neither to subscribers of that name nor to
wildcard subscribers — only the raw `document` emission happens, because
the empty string is falsy in the `if (doc.event)` test. -/
theorem C1_routing_counterexample :
    emptyEventDoc.event = some "" ∧
    handleData false false (some emptyEventDoc) =
      [Emission.document emptyEventDoc] ∧
    Emission.event "" emptyEventDoc.message ∉
      handleData false false (some emptyEventDoc) ∧
    Emission.event "message" emptyEventDoc.message ∉
      handleData false false (some emptyEventDoc) := by
  decide

/-- Claim C1, amended: for every document the stream delivers to a tailing
channel, if the document carries a non-empty event name it is emitted to
subscribers of that name and to wildcard subscribers; every document is
emitted to raw `document` observers; and delivery preserves stream order:
the `document` emissions reproduce the delivered documents in order, and
for any non-wildcard name the payloads routed to its subscribers are the
matching documents' payloads in order. -/
theorem C1_routing_amended (d : Entry) (e : String) (docs : List Entry)
    (n : String) (hev : d.event = some e) (hne : e ≠ "")
    (hn : n ≠ "message") :
    handleData false false (some d) =
      [Emission.event e d.message, Emission.event "message" d.message,
       Emission.document d] ∧
    (∀ d2 : Entry, Emission.document d2 ∈ handleData false false (some d2)) ∧
    documents (deliverAll false false docs) = docs ∧
    eventsFor n (deliverAll false false docs) =
      (docs.filter fun d2 => d2.event = some n ∧ jsTruthy d2.event).map
        Entry.message := by
  refine ⟨?_, ?_, documents_deliverAll docs, eventsFor_deliverAll n hn docs⟩
  · simp [handleData, jsTruthy, hev, hne]
  · intro d2
    cases h : jsTruthy d2.event <;> simp [handleData, h]

/-- Claim C1, witness: the amended routing theorem evaluated on the
document `fooDoc` and the two-document stream. -/
theorem C1_routing_witness :
    handleData false false (some fooDoc) =
      [Emission.event "foo" fooDoc.message,
       Emission.event "message" fooDoc.message,
       Emission.document fooDoc] ∧
    (∀ d2 : Entry, Emission.document d2 ∈ handleData false false (some d2)) ∧
    documents (deliverAll false false [fooDoc, emptyEventDoc]) =
      [fooDoc, emptyEventDoc] ∧
    eventsFor "foo" (deliverAll false false [fooDoc, emptyEventDoc]) =
      ([fooDoc, emptyEventDoc].filter fun d2 =>
        d2.event = some "foo" ∧ jsTruthy d2.event).map Entry.message :=
  C1_routing_amended fooDoc "foo" [fooDoc, emptyEventDoc] "foo" rfl
    (by decide) (by decide)

/-- Claim C2, code-bug evaluation: on a collection that already holds a
document, `latest` still inserts a dummy and returns it instead of the
existing newest document, because `.toArray()[0]` reads property 0 of a
Promise and so discards the query result; the Position Tracker as
specified (and as the code's own doc comment describes) returns the
existing document with nothing inserted; and a dummy write the store does
not acknowledge rejects with the bootstrap failure. -/
theorem C2_latest_always_inserts_dummy :
    latest nonEmptyStore none = .ok (⟨[fooDoc, dummy1], 2, true⟩, dummy1) ∧
    latestSpec nonEmptyStore none = .ok (nonEmptyStore, fooDoc) ∧
    latest ⟨[], 0, false⟩ none = .error "failed to insert dummy" :=
  ⟨rfl, rfl, rfl⟩

/-- Claim C3, code-bug evaluation: constructing with the recreate option
set to false still yields `this.recreate = true`, because the ternary
`options.recreate ? options.recreate : true` maps the falsy value false to
true; consequently the cursor's close handler on an open channel recreates
the stream despite the flag having been set to false. -/
theorem C3_recreate_flag_ignored :
    computeRecreate (some false) = true ∧
    closeHandler false false (computeRecreate (some false)) dummy0 =
      ⟨true, some dummy0⟩ :=
  ⟨rfl, rfl⟩

/-- Claim C4, code-bug evaluation: in the recovery scenario (anchor
`dummy0`, last successfully processed document `pDoc`, document `qDoc`
appended after the break), the recreation's `latest` call discards its
anchor-lookup result and inserts a fresh dummy at the tail of the log, so
the recreated stream, opened after that dummy's position, delivers
nothing — whereas a stream anchored at the last successfully processed
position would deliver `qDoc`.  The appended-after entry `qDoc` is
skipped. -/
theorem C4_recovery_skips_entries :
    latest recreateStore (some dummy0) =
      .ok (⟨[dummy0, pDoc, qDoc, dummy3], 4, true⟩, dummy3) ∧
    streamAfter [dummy0, pDoc, qDoc, dummy3] dummy3.id = [] ∧
    streamAfter recreateStore.log pDoc.id = [qDoc] :=
  ⟨rfl, rfl, rfl⟩

/-- Claim C5, counterexample: an admissible interleaving of `listen`'s
operations in which the anchor is obtained before the prior stream's
close completes.  `Promise.all([this.latest(latest), this.close()])`
starts the anchor query and the close together, so the claim that the
anchor is always obtained after the prior stream has been closed, never
before or concurrently, fails. -/
theorem C5_anchor_concurrent_counterexample :
    listenAdmits listenTraceEx ∧
    ¬ precedes listenTraceEx .priorCloseCompleted .anchorObtained := by
  decide

/-- Claim C5, amended: in every admissible execution of `listen`, at most
one streaming read is active at a time — at no step is the prior stream
still open while the new cursor is already assigned — but the anchor query
is issued before the prior close completes, that is concurrently with the
close rather than after it. -/
theorem C5_single_stream_amended (t : List LOp) (h : listenAdmits t) :
    (∀ i : Nat, ¬ (priorOpenAt t i ∧ newOpenAt t i)) ∧
    precedes t .anchorQueryIssued .priorCloseCompleted := by
  obtain ⟨-, -, h1, -, h2, -, h3, -⟩ := h
  constructor
  · rintro i ⟨hp, hs⟩
    exact absurd (Nat.lt_of_le_of_lt hs hp) (Nat.lt_asymm h3)
  · exact Nat.lt_trans h1 h2

/-- Claim C5, witness: the amended single-stream theorem evaluated on the
concrete admissible trace. -/
theorem C5_single_stream_witness :
    (∀ i : Nat, ¬ (priorOpenAt listenTraceEx i ∧ newOpenAt listenTraceEx i)) ∧
    precedes listenTraceEx .anchorQueryIssued .priorCloseCompleted :=
  C5_single_stream_amended listenTraceEx (by decide)

/-- Claim C6: with the collection reference set (provisioning completed at
least once), `publish` appends exactly one document carrying the given
event name and payload, at the store-assigned next position, and resolves
with that stored document; with no collection reference it stays
suspended on the readiness signal, and `ready` resolves immediately
exactly when the collection reference is set. -/
theorem C6_publish_appends (s : Store) (event : String) (message : Msg) :
    publish (some s) event message =
      some (⟨s.log ++ [⟨s.nextId, some event, some message, false⟩],
             s.nextId + 1, s.insertOk⟩,
            ⟨s.nextId, some event, some message, false⟩) ∧
    publish none event message = none ∧
    ready (some s) = true ∧ ready none = false :=
  ⟨rfl, rfl, rfl, rfl⟩

/-- Claim C7, code-bug evaluation: while the closed flag is set the cursor
handlers are inert — a delivered document is silently dropped and a broken
cursor triggers no recreation, whatever the recreate flag — but `listen`'s
continuation clears the closed flag unconditionally.  On the concrete
channel closed mid-provisioning, `close()` completes successfully and
leaves the state unchanged; the in-flight continuation then clears the
closed flag and assigns the new cursor, and a document the reopened
stream subsequently delivers fires the subscriber emissions after
`close()` has completed — contradicting the claim's "never fires another
subscriber callback and never attempts stream recreation". -/
theorem C7_close_then_resurrect :
    handleData true false (some fooDoc) = [] ∧
    closeHandler true false true dummy0 = ⟨false, none⟩ ∧
    (close chanMidProvision).snd = true ∧
    (close chanMidProvision).fst = chanMidProvision ∧
    (listenContinuation (close chanMidProvision).fst).closed = false ∧
    handleData (listenContinuation (close chanMidProvision).fst).closed
      false (some fooDoc) =
      [Emission.event "foo" fooDoc.message,
       Emission.event "message" fooDoc.message,
       Emission.document fooDoc] := by
  decide

/-- Claim C8: `close` always resolves (its only outcome is success), a
second `close` on the already-closed channel is a no-op that resolves
successfully, and on a channel that never opened a cursor `close` merely
sets the closed flag. -/
theorem C8_close_idempotent (c : Chan) :
    (close c).snd = true ∧
    close (close c).fst = ((close c).fst, true) ∧
    (c.cursor = false → (close c).fst = { c with closed := true }) := by
  cases hc : c.cursor <;> simp [close, hc]

/-- Claim C8, witness: closing the never-opened channel `chan0` twice. -/
theorem C8_close_idempotent_witness :
    (close chan0).snd = true ∧
    close (close chan0).fst = ((close chan0).fst, true) ∧
    (close chan0).fst = { chan0 with closed := true } :=
  ⟨(C8_close_idempotent chan0).1, (C8_close_idempotent chan0).2.1,
   (C8_close_idempotent chan0).2.2 rfl⟩

/-- Claim C9: `publish` is not gated on the closed flag — it consults only
the collection reference, so setting the closed flag changes nothing and
no closed-channel rejection exists.  After a `close` on a channel that
never opened a cursor the collection reference is left in place, so a
subsequent publish still appends and resolves; after a `close` that had a
cursor to close, the collection reference is released and a subsequent
publish stays suspended on the readiness signal. -/
theorem C9_publish_not_gated_on_closed (c : Chan) (event : String)
    (message : Msg) :
    publishChan { c with closed := true } event message =
      publishChan c event message ∧
    (c.cursor = false → (close c).fst.collection = c.collection) ∧
    (c.cursor = true →
      (close c).fst.collection = none ∧
      publishChan (close c).fst event message = none) ∧
    (∀ s, c.collection = some s → c.cursor = false →
      publishChan (close c).fst event message =
        some (insertOne s (some event) (some message) false)) := by
  refine ⟨rfl, ?_, ?_, ?_⟩
  · intro hc; simp [close, hc]
  · intro hc; simp [close, hc, publishChan, publish]
  · intro s hs hc; simp [close, hc, publishChan, publish, hs]

/-- Claim C9, witness: the theorem evaluated on the cursor-holding channel
`chanCur` (collection released, publish suspended) and on the never-opened
channel `chan0` (publish after close appends and resolves). -/
theorem C9_publish_not_gated_witness :
    publishChan { chanCur with closed := true } "foo" "m" =
      publishChan chanCur "foo" "m" ∧
    (close chanCur).fst.collection = none ∧
    publishChan (close chanCur).fst "foo" "m" = none ∧
    publishChan (close chan0).fst "foo" "m" =
      some (insertOne nonEmptyStore (some "foo") (some "m") false) :=
  ⟨(C9_publish_not_gated_on_closed chanCur "foo" "m").1,
   ((C9_publish_not_gated_on_closed chanCur "foo" "m").2.2.1 rfl).1,
   ((C9_publish_not_gated_on_closed chanCur "foo" "m").2.2.1 rfl).2,
   (C9_publish_not_gated_on_closed chan0 "foo" "m").2.2.2 nonEmptyStore
     rfl rfl⟩

/-- Claim C10: a channel constructed without a name binds to the log named
mubsub, so any two unnamed channels on the same database bind to the same
backing log. -/
theorem C10_default_name :
    channelName none = "mubsub" ∧
    ∀ db : String → List Entry, boundLog db none = db "mubsub" :=
  ⟨rfl, fun _ => rfl⟩

end Mubsub
